import Mathlib

/-!
Verification development for the shreddit comment-removal tool.

The embedding below is a shallow model of `src/main.go` together with the
second entry point `src/unnamed/part_000`.  Pure Go functions become Lean
functions; the HTTP side effects of a run are recorded as explicit traces of
`Action` values; fallible decoding is modelled with `Option`/`Except`;
`time.Time` instants are modelled as rationals (epoch seconds), and the Go
conversion `int64(float64)` used in `Comment.Created` is modelled as
truncation toward zero.
-/

namespace Shreddit

/-- Truncation toward zero, embedding the Go conversion `int64(f)` applied to
the `float64` field `CreatedUTC` in `Comment.Created` (src/main.go line 124,
src/unnamed/part_000 line 68). -/
def truncToZero (q : ℚ) : ℤ :=
  if 0 ≤ q then ⌊q⌋ else ⌈q⌉

/-- The `Source` sub-record of a comment (src/main.go lines 60-65). -/
structure Source where
  Score : ℤ
  CreatedUTC : ℚ
  CanGild : Bool
  Date : ℚ
  deriving Repr, DecidableEq

/-- A comment record (src/main.go lines 52-58). -/
structure Comment where
  ID : String
  Body : String
  Permalink : String
  Subreddit : String
  source : Source
  deriving Repr, DecidableEq

/-- The loaded configuration / retention policy (src/main.go lines 24-36). -/
structure Config where
  Username : String
  Password : String
  ClientID : String
  ClientSecret : String
  UserAgent : String
  SkipCommentIDs : List String
  SkipSubreddits : List String
  Before : ℚ
  MaxScore : ℤ
  ReplacementComment : String
  DryRun : Bool
  deriving Repr, DecidableEq

/-- `Comment.Created` (src/main.go lines 123-125): `time.Unix(int64(c.Source.CreatedUTC), 0)`,
i.e. the creation instant in whole epoch seconds, fractional part discarded. -/
def Comment.Created (c : Comment) : ℚ :=
  ((truncToZero c.source.CreatedUTC : ℤ) : ℚ)

/-- `Comment.Fullname` (src/main.go lines 127-129). -/
def Comment.Fullname (c : Comment) : String :=
  "t1_" ++ c.ID

/-- `Comment.ShouldSkip` (src/main.go lines 131-154, identical in
src/unnamed/part_000 lines 75-97): the two membership loops, then the
`Created().After(Before)` check, then the `Score > int64(MaxScore)` check,
first match returning true. -/
def Comment.ShouldSkip (c : Comment) (config : Config) : Bool :=
  if config.SkipCommentIDs.contains c.ID then true
  else if config.SkipSubreddits.contains c.Subreddit then true
  else if config.Before < c.Created then true
  else if config.MaxScore < c.source.Score then true
  else false

/-- The per-comment disposition of the retention filter (spec section 3).
Each skip constructor corresponds to one branch of `Comment.ShouldSkip`,
in source order; the branch that fires is the one whose reason the source
logs. -/
inductive Disposition
  | keep
  | skipById
  | skipBySubcommunity
  | skipByDate
  | skipByScore
  deriving Repr, DecidableEq

/-- The decision function of the retention filter: `Comment.ShouldSkip`
(src/main.go lines 131-154) with each early-return branch tagged by the
reason it logs, instead of collapsed to `true`. -/
def decideDisposition (c : Comment) (config : Config) : Disposition :=
  if config.SkipCommentIDs.contains c.ID then Disposition.skipById
  else if config.SkipSubreddits.contains c.Subreddit then Disposition.skipBySubcommunity
  else if config.Before < c.Created then Disposition.skipByDate
  else if config.MaxScore < c.source.Score then Disposition.skipByScore
  else Disposition.keep

/-! ## Observable effects of a run

Every HTTP request issued by the program, plus the pacing sleep, is recorded
as one `Action`.  Requests carry the data the program puts in them, so the
traces distinguish e.g. which bearer token a mutating call was made with. -/

/-- One observable step of a run: the listing GET issued by `List`
(src/main.go line 296), the edit POST (line 250), the delete POST
(line 221), or the pacing `time.Sleep` (src/unnamed/part_000 line 287). -/
inductive Action
  | getListing (cursor : String)
  | editusertext (token : String) (thingId : String) (text : String)
  | del (token : String) (id : String)
  | sleepSeconds (n : ℕ)
  deriving Repr, DecidableEq

/-- An action is mutating when it is one of the two platform-mutating POSTs. -/
def Action.isMutating : Action → Bool
  | Action.editusertext _ _ _ => true
  | Action.del _ _ => true
  | _ => false

/-- Whether a trace contains a pacing sleep. -/
def hasSleep (l : List Action) : Bool :=
  l.any fun a =>
    match a with
    | Action.sleepSeconds _ => true
    | _ => false

/-- Concatenation of the lists produced for each element, in order (the trace
of a loop body run over a list). -/
def concatMap (f : α → List β) : List α → List β
  | [] => []
  | a :: as => f a ++ concatMap f as

/-! ## The mutating calls: Comment.Edit and Comment.Delete -/

/-- The decoded body of the edit response, as far as `Comment.Edit` inspects
it (src/main.go lines 260-277): the request can fail in transport, the body
can fail to decode into a map, or it decodes and the only thing looked at is
the set of top-level keys (the success marker is the key "jquery"). -/
inductive EditResp
  | transportError
  | undecodable
  | decoded (keys : List String)
  deriving Repr, DecidableEq

/-- `Comment.Edit` (src/main.go lines 239-278): the gate
`ShouldSkip || DryRun` suppresses everything; otherwise one edit POST is
issued and the response outcome is only logged.  Returns the actions issued
and the log lines produced after the request. -/
def Comment.EditStep (c : Comment) (token : String) (config : Config)
    (resp : EditResp) : List Action × List String :=
  if c.ShouldSkip config || config.DryRun then ([], [])
  else
    ([Action.editusertext token c.Fullname config.ReplacementComment],
      match resp with
      | EditResp.transportError => ["Failed to edit comment"]
      | EditResp.undecodable => ["Failed to decode response"]
      | EditResp.decoded keys =>
        if keys.contains "jquery" then ["Edited successfully."]
        else ["Failed to edit"])

/-- The actions issued by `Comment.Edit`, which do not depend on the
response (the request is sent before the response is inspected). -/
def Comment.EditActions (c : Comment) (token : String) (config : Config) :
    List Action :=
  if c.ShouldSkip config || config.DryRun then []
  else [Action.editusertext token c.Fullname config.ReplacementComment]

/-- `Comment.Delete` (src/main.go lines 210-237): the same gate, then one
delete POST whose response body is never read. -/
def Comment.DeleteActions (c : Comment) (token : String) (config : Config) :
    List Action :=
  if c.ShouldSkip config || config.DryRun then []
  else [Action.del token c.Fullname]

/-! ## The paginated listing stream -/

/-- One decoded page of the listing response, `Response.Data`
(src/main.go lines 67-71); `Children` holds each child's `Data` comment. -/
structure Page where
  Children : List Comment
  After : String
  Before : String
  deriving Repr, DecidableEq

/-- The listing endpoint as the producer goroutine sees it: for a cursor
(empty for the first request) either a decoded page, or `none` when the GET
fails in transport or the body does not decode. -/
def PageServer : Type := String → Option Page

/-- The loop body of `List`'s producer goroutine (src/main.go lines 288-326),
with `fuel` bounding the number of iterations.  Returns the comments sent on
the channel in order, the list of cursors requested in order, and `true` when
the loop ended through the normal `break` (zero children or empty `After`)
rather than through an error return.  In both cases the deferred
`close(out)` runs, so the channel closes identically. -/
def listGo (server : PageServer) : ℕ → String → List Comment × List String × Bool
  | 0, _ => ([], [], false)
  | fuel + 1, lastSeen =>
    match server lastSeen with
    | none => ([], [lastSeen], false)
    | some page =>
      if page.Children.length = 0 ∨ page.After = "" then
        (page.Children, [lastSeen], true)
      else
        let r := listGo server fuel page.After
        (page.Children ++ r.1, lastSeen :: r.2.1, r.2.2)

/-- `List` (src/main.go lines 280-330): the stream starts with an empty
cursor. -/
def listStream (server : PageServer) (fuel : ℕ) :
    List Comment × List String × Bool :=
  listGo server fuel ""

/-! ## Authentication -/

/-- Decoded token-endpoint response (src/main.go lines 15-22). -/
structure AccessTokenResponse where
  AccessToken : String
  ExpiresIn : ℤ
  Scope : String
  TokenType : String
  Error : String
  ErrorDesc : String
  deriving Repr, DecidableEq

/-- What the token exchange produced on the wire: a transport (or body-read)
failure, or a body that decodes to `some` response or fails to decode. -/
inductive TokenResp
  | transportError (msg : String)
  | body (decoded : Option AccessTokenResponse)
  deriving Repr, DecidableEq

/-- `newAccessToken` (src/main.go lines 332-376): transport and decode
failures are errors, a decoded body with a non-empty `Error` field is an
error carrying `ErrorDesc`, otherwise the access token is returned. -/
def newAccessToken (resp : TokenResp) : Except String String :=
  match resp with
  | TokenResp.transportError m => Except.error m
  | TokenResp.body none => Except.error "unable to decode response"
  | TokenResp.body (some r) =>
    if r.Error ≠ "" then Except.error r.ErrorDesc else Except.ok r.AccessToken

/-! ## The two entry points -/

/-- The per-comment loop body of `main` in src/main.go (lines 393-401):
`comment.Edit` then `comment.Delete`; the pacing sleep is commented out. -/
def processMainGo (c : Comment) (token : String) (config : Config)
    (resp : EditResp) : List Action :=
  (c.EditStep token config resp).1 ++ c.DeleteActions token config

/-- The consumer loop of src/main.go's `main` over the streamed comments. -/
def runConsumerMainGo (cs : List Comment) (token : String) (config : Config)
    (respf : Comment → EditResp) : List Action :=
  concatMap (fun c => processMainGo c token config (respf c)) cs

/-- The per-comment loop body of `main` in src/unnamed/part_000
(lines 283-288): edit, delete, then `time.Sleep(15 * time.Second)`. -/
def processPart000 (c : Comment) (token : String) (config : Config)
    (resp : EditResp) : List Action :=
  (c.EditStep token config resp).1 ++ c.DeleteActions token config
    ++ [Action.sleepSeconds 15]

/-- The consumer loop of part_000's `main` over the streamed comments. -/
def runConsumerPart000 (cs : List Comment) (token : String) (config : Config)
    (respf : Comment → EditResp) : List Action :=
  concatMap (fun c => processPart000 c token config (respf c)) cs

/-- Outcome of a whole run: the listing requests issued by the producer, the
actions of the consumer loop in order, and the process exit code. -/
structure RunResult where
  requests : List Action
  consumer : List Action
  exitCode : ℕ
  deriving Repr, DecidableEq

/-- `main` of src/main.go (lines 378-402) after config loading: the result of
`newAccessToken` is passed to `fmt.Errorf`, which only constructs an error
value — it neither prints nor exits — so on failure the run continues with
`accessToken` left at its zero value `""`. -/
def mainGoToken (tok : TokenResp) : String :=
  match newAccessToken tok with
  | Except.ok t => t
  | Except.error _ => ""

/-- `main` of src/main.go (lines 378-402) after config loading: the token is
`mainGoToken` (empty on failure, the run continuing anyway), the stream is
consumed with no pacing sleep, and the process always exits 0. -/
def mainGoRun (config : Config) (tok : TokenResp) (server : PageServer)
    (respf : Comment → EditResp) (fuel : ℕ) : RunResult :=
  { requests := (listStream server fuel).2.1.map Action.getListing
    consumer := runConsumerMainGo (listStream server fuel).1 (mainGoToken tok) config respf
    exitCode := 0 }

/-- `main` of src/unnamed/part_000 (lines 259-289) after config loading: an
authentication failure hits `log.Fatalf`, which terminates the process with
exit code 1 before any listing request. -/
def part000Run (config : Config) (tok : TokenResp) (server : PageServer)
    (respf : Comment → EditResp) (fuel : ℕ) : RunResult :=
  match newAccessToken tok with
  | Except.error _ => { requests := [], consumer := [], exitCode := 1 }
  | Except.ok token =>
    let r := listStream server fuel
    { requests := r.2.1.map Action.getListing
      consumer := runConsumerPart000 r.1 token config respf
      exitCode := 0 }

/-! ## Concrete fixtures used by witnesses and counterexamples -/

/-- A comment kept under `cfgKeep`: old (epoch second 100) and low-scoring. -/
def ca : Comment :=
  { ID := "a", Body := "ba", Permalink := "pa", Subreddit := "s1",
    source := { Score := 1, CreatedUTC := 100, CanGild := false, Date := 0 } }

/-- A second kept comment. -/
def cb : Comment :=
  { ID := "b", Body := "bb", Permalink := "pb", Subreddit := "s1",
    source := { Score := 1, CreatedUTC := 100, CanGild := false, Date := 0 } }

/-- A third kept comment. -/
def cc : Comment :=
  { ID := "c", Body := "bc", Permalink := "pc", Subreddit := "s1",
    source := { Score := 1, CreatedUTC := 100, CanGild := false, Date := 0 } }

/-- A comment whose every other field would also trip a filter: its id is in
`cfgSkipAll.SkipCommentIDs`, its subreddit in `SkipSubreddits`, it is newer
than the cutoff and its score exceeds `MaxScore`. -/
def caAll : Comment :=
  { ID := "a", Body := "ba", Permalink := "pa", Subreddit := "mod",
    source := { Score := 999, CreatedUTC := 5000, CanGild := false, Date := 0 } }

/-- A comment created exactly at the cutoff instant of `cfgKeep`. -/
def cAt : Comment :=
  { ID := "t", Body := "bt", Permalink := "pt", Subreddit := "s1",
    source := { Score := 1, CreatedUTC := 1000, CanGild := false, Date := 0 } }

/-- A policy that keeps `ca`, `cb`, `cc`: no preserved ids or subreddits,
cutoff at epoch second 1000, max score 10, replacement text "r". -/
def cfgKeep : Config :=
  { Username := "u", Password := "p", ClientID := "ci", ClientSecret := "cs",
    UserAgent := "ua", SkipCommentIDs := [], SkipSubreddits := [],
    Before := 1000, MaxScore := 10, ReplacementComment := "r", DryRun := false }

/-- `cfgKeep` with the dry-run flag set. -/
def cfgDry : Config :=
  { cfgKeep with DryRun := true }

/-- A policy preserving id "a" and subreddit "mod". -/
def cfgSkipAll : Config :=
  { cfgKeep with SkipCommentIDs := ["a"], SkipSubreddits := ["mod"] }

/-- A server with a single terminal page holding one kept comment. -/
def serverK : PageServer := fun cur =>
  if cur = "" then some { Children := [ca], After := "", Before := "" } else none

/-- A server answering page one with 2 comments and cursor "X", and page two
with 0 comments and an empty cursor (the scenario of claim C3). -/
def server2 : PageServer := fun cur =>
  if cur = "" then some { Children := [ca, cb], After := "X", Before := "" }
  else if cur = "X" then some { Children := [], After := "", Before := "" }
  else none

/-- A server whose every request fails (transport or decode failure). -/
def errServer : PageServer := fun _ => none

/-- A server whose first page is already empty: normal exhaustion. -/
def emptyServer : PageServer := fun cur =>
  if cur = "" then some { Children := [], After := "", Before := "" } else none

/-- A successful token exchange yielding token "t". -/
def tokOK : TokenResp :=
  TokenResp.body (some
    { AccessToken := "t", ExpiresIn := 3600, Scope := "*",
      TokenType := "bearer", Error := "", ErrorDesc := "" })

/-- A token exchange whose decoded body carries a non-empty error field. -/
def badTok : TokenResp :=
  TokenResp.body (some
    { AccessToken := "", ExpiresIn := 0, Scope := "",
      TokenType := "", Error := "invalid_grant", ErrorDesc := "wrong password" })

/-- Every edit request decodes and carries the "jquery" success marker. -/
def respOkAll : Comment → EditResp := fun _ => EditResp.decoded ["jquery"]

/-- A comment whose raw platform timestamp has a fractional part. -/
def cFrac : Comment :=
  { ID := "f", Body := "bf", Permalink := "pf", Subreddit := "s1",
    source := { Score := 1, CreatedUTC := 5 / 2, CanGild := false, Date := 0 } }

/-- A comment whose raw platform timestamp is the whole-second part of
`cFrac`'s. -/
def cWhole : Comment :=
  { ID := "w", Body := "bw", Permalink := "pw", Subreddit := "s1",
    source := { Score := 1, CreatedUTC := 2, CanGild := false, Date := 0 } }

/-! ## Shared lemmas -/

/-- `Comment.ShouldSkip` returns true exactly when the disposition is not
keep: the filter's boolean result collapses the tagged decision. -/
theorem shouldSkip_iff_not_keep (c : Comment) (config : Config) :
    c.ShouldSkip config = true ↔ decideDisposition c config ≠ Disposition.keep := by
  unfold Comment.ShouldSkip decideDisposition
  split_ifs <;> simp_all

theorem concatMap_append (f : α → List β) (l₁ l₂ : List α) :
    concatMap f (l₁ ++ l₂) = concatMap f l₁ ++ concatMap f l₂ := by
  induction l₁ with
  | nil => rfl
  | cons a as ih => simp [concatMap, ih]

/-! ## Claims -/

/-- C1: the retention filter evaluates the four skip checks in the fixed
source order — preserved ids, preserved subreddits, creation instant after
the cutoff, score above max-score — with the first matching check
determining the disposition and short-circuiting the rest, and keep returned
exactly when none match.  In particular the id check has absolute
precedence. -/
theorem filter_first_match_order (c : Comment) (config : Config) :
    (decideDisposition c config = Disposition.skipById ↔
      config.SkipCommentIDs.contains c.ID = true)
    ∧ (decideDisposition c config = Disposition.skipBySubcommunity ↔
      config.SkipCommentIDs.contains c.ID = false ∧
      config.SkipSubreddits.contains c.Subreddit = true)
    ∧ (decideDisposition c config = Disposition.skipByDate ↔
      config.SkipCommentIDs.contains c.ID = false ∧
      config.SkipSubreddits.contains c.Subreddit = false ∧
      config.Before < c.Created)
    ∧ (decideDisposition c config = Disposition.skipByScore ↔
      config.SkipCommentIDs.contains c.ID = false ∧
      config.SkipSubreddits.contains c.Subreddit = false ∧
      ¬config.Before < c.Created ∧
      config.MaxScore < c.source.Score)
    ∧ (decideDisposition c config = Disposition.keep ↔
      config.SkipCommentIDs.contains c.ID = false ∧
      config.SkipSubreddits.contains c.Subreddit = false ∧
      ¬config.Before < c.Created ∧
      ¬config.MaxScore < c.source.Score) := by
  unfold decideDisposition
  split_ifs with h1 h2 h3 h4 <;> simp_all

/-- C1 witness: `caAll` would trip every other filter of `cfgSkipAll`, yet
its preserved id alone decides the disposition. -/
theorem filter_first_match_order_witness :
    decideDisposition caAll cfgSkipAll = Disposition.skipById :=
  (filter_first_match_order caAll cfgSkipAll).1.mpr (by decide)

/-- C4: for a comment matched by neither the id nor the subreddit check, the
disposition is skip-by-date exactly when the creation instant is strictly
after the cutoff; a comment created at or before the cutoff is never skipped
by the date check. -/
theorem date_check_strictly_after (c : Comment) (config : Config)
    (h1 : config.SkipCommentIDs.contains c.ID = false)
    (h2 : config.SkipSubreddits.contains c.Subreddit = false) :
    (decideDisposition c config = Disposition.skipByDate ↔
      config.Before < c.Created)
    ∧ (c.Created ≤ config.Before →
      decideDisposition c config ≠ Disposition.skipByDate) := by
  have hmain : decideDisposition c config = Disposition.skipByDate ↔
      config.Before < c.Created := by
    unfold decideDisposition
    simp only [h1, h2]
    split_ifs with h3 h4 <;> simp_all
  exact ⟨hmain, fun hle hd => absurd (hmain.mp hd) (not_lt.mpr hle)⟩

/-- C4 witness: `cAt` is created exactly at `cfgKeep`'s cutoff instant and is
not skipped by the date check. -/
theorem date_check_strictly_after_witness :
    decideDisposition cAt cfgKeep ≠ Disposition.skipByDate :=
  (date_check_strictly_after cAt cfgKeep (by decide) (by decide)).2 (by decide)

/-- C10: the derived creation instant truncates the fractional platform
timestamp toward zero to whole epoch seconds — for nonnegative timestamps the
truncation is the floor, within one of the raw value — so sub-second
precision is discarded: timestamps with equal whole-second truncations give
equal creation instants, and the whole retention decision is unchanged when
only the fractional part of the timestamp differs. -/
theorem created_truncates_to_whole_seconds :
    (∀ c : Comment, c.Created = ((truncToZero c.source.CreatedUTC : ℤ) : ℚ))
    ∧ (∀ q : ℚ, 0 ≤ q → truncToZero q = ⌊q⌋ ∧
      ((truncToZero q : ℤ) : ℚ) ≤ q ∧ q < ((truncToZero q : ℤ) : ℚ) + 1)
    ∧ (∀ c₁ c₂ : Comment,
      truncToZero c₁.source.CreatedUTC = truncToZero c₂.source.CreatedUTC →
      c₁.Created = c₂.Created)
    ∧ (∀ (c₁ c₂ : Comment) (config : Config), c₁.ID = c₂.ID →
      c₁.Subreddit = c₂.Subreddit → c₁.source.Score = c₂.source.Score →
      truncToZero c₁.source.CreatedUTC = truncToZero c₂.source.CreatedUTC →
      decideDisposition c₁ config = decideDisposition c₂ config) := by
  refine ⟨fun c => rfl, fun q hq => ?_, fun c₁ c₂ h => ?_,
    fun c₁ c₂ config hid hsub hsc ht => ?_⟩
  · have e : truncToZero q = ⌊q⌋ := by simp only [truncToZero, if_pos hq]
    refine ⟨e, ?_, ?_⟩ <;> rw [e]
    · exact Int.floor_le q
    · exact Int.lt_floor_add_one q
  · simp only [Comment.Created, h]
  · simp only [decideDisposition, Comment.Created, hid, hsub, hsc, ht]

/-- C10 witness: a timestamp of 2.5 seconds and one of 2 whole seconds give
the same creation instant. -/
theorem created_truncates_to_whole_seconds_witness :
    cFrac.Created = cWhole.Created :=
  created_truncates_to_whole_seconds.2.2.1 cFrac cWhole (by
    show truncToZero (5 / 2 : ℚ) = truncToZero (2 : ℚ)
    norm_num [truncToZero])

/-- Under dry-run the consumer loop of src/main.go issues nothing at all. -/
theorem runConsumerMainGo_dryrun (cs : List Comment) (token : String)
    (config : Config) (respf : Comment → EditResp) (h : config.DryRun = true) :
    runConsumerMainGo cs token config respf = [] := by
  induction cs with
  | nil => rfl
  | cons c cs ih =>
    have hc : processMainGo c token config (respf c) = [] := by
      simp [processMainGo, Comment.EditStep, Comment.DeleteActions, h]
    calc runConsumerMainGo (c :: cs) token config respf
        = processMainGo c token config (respf c)
          ++ runConsumerMainGo cs token config respf := rfl
      _ = [] := by rw [hc, ih]; rfl

/-- Under dry-run the consumer loop of part_000 issues only pacing sleeps. -/
theorem runConsumerPart000_dryrun_filter (cs : List Comment) (token : String)
    (config : Config) (respf : Comment → EditResp) (h : config.DryRun = true) :
    (runConsumerPart000 cs token config respf).filter Action.isMutating = [] := by
  induction cs with
  | nil => rfl
  | cons c cs ih =>
    have hc : (processPart000 c token config (respf c)).filter Action.isMutating
        = [] := by
      simp [processPart000, Comment.EditStep, Comment.DeleteActions, h,
        Action.isMutating]
    calc (runConsumerPart000 (c :: cs) token config respf).filter Action.isMutating
        = (processPart000 c token config (respf c)).filter Action.isMutating
          ++ (runConsumerPart000 cs token config respf).filter Action.isMutating := by
          rw [show runConsumerPart000 (c :: cs) token config respf =
            processPart000 c token config (respf c)
              ++ runConsumerPart000 cs token config respf from rfl,
            List.filter_append]
      _ = [] := by rw [hc, ih]; rfl

/-- C2: a comment whose disposition is not keep, or any comment under a
dry-run policy, triggers neither the edit POST nor the delete POST; with
dry-run set a full run issues zero mutating calls in either entry point. -/
theorem skip_or_dryrun_no_mutating_calls :
    (∀ (c : Comment) (config : Config) (token : String) (resp : EditResp),
      decideDisposition c config ≠ Disposition.keep ∨ config.DryRun = true →
      (c.EditStep token config resp).1 = [] ∧ c.DeleteActions token config = [])
    ∧ (∀ (config : Config) (tok : TokenResp) (server : PageServer)
        (respf : Comment → EditResp) (fuel : ℕ), config.DryRun = true →
      (mainGoRun config tok server respf fuel).consumer.filter Action.isMutating = []
      ∧ (part000Run config tok server respf fuel).consumer.filter Action.isMutating = []) := by
  constructor
  · intro c config token resp h
    have hg : (c.ShouldSkip config || config.DryRun) = true := by
      cases h with
      | inl h => simp [(shouldSkip_iff_not_keep c config).mpr h]
      | inr h => simp [h]
    exact ⟨by simp [Comment.EditStep, hg], by simp [Comment.DeleteActions, hg]⟩
  · intro config tok server respf fuel h
    constructor
    · have h1 : (mainGoRun config tok server respf fuel).consumer =
          runConsumerMainGo (listStream server fuel).1 (mainGoToken tok) config respf := rfl
      rw [h1, runConsumerMainGo_dryrun _ _ _ _ h]
      rfl
    · unfold part000Run
      cases hE : newAccessToken tok with
      | error e => simp only [hE]; rfl
      | ok t =>
        simp only [hE]
        exact runConsumerPart000_dryrun_filter _ _ _ _ h

/-- C2 witness: the preserved-id comment `caAll` generates no mutating call. -/
theorem skip_or_dryrun_no_mutating_calls_witness :
    (caAll.EditStep "t" cfgSkipAll (EditResp.decoded ["jquery"])).1 = []
    ∧ caAll.DeleteActions "t" cfgSkipAll = [] :=
  skip_or_dryrun_no_mutating_calls.1 caAll cfgSkipAll "t"
    (EditResp.decoded ["jquery"]) (Or.inl (by decide))

/-- C3: the stream emits each page's comments in page order, requests the
next page with the returned cursor, and terminates normally right after the
first page with zero comments or an empty cursor, issuing no further
requests; on the concrete two-page scenario exactly 2 comments are yielded
and exactly 2 GET requests issued. -/
theorem stream_pagination_and_termination :
    (∀ (server : PageServer) (page : Page) (fuel : ℕ) (cursor : String),
      server cursor = some page →
      (page.Children.length = 0 ∨ page.After = "") →
      listGo server (fuel + 1) cursor = (page.Children, [cursor], true))
    ∧ (∀ (server : PageServer) (page : Page) (fuel : ℕ) (cursor : String),
      server cursor = some page →
      ¬(page.Children.length = 0 ∨ page.After = "") →
      listGo server (fuel + 1) cursor =
        (page.Children ++ (listGo server fuel page.After).1,
          cursor :: (listGo server fuel page.After).2.1,
          (listGo server fuel page.After).2.2))
    ∧ listStream server2 3 = ([ca, cb], ["", "X"], true) := by
  refine ⟨?_, ?_, by decide⟩
  · intro server page fuel cursor hs ht
    simp only [listGo, hs]
    rw [if_pos ht]
  · intro server page fuel cursor hs ht
    simp only [listGo, hs]
    rw [if_neg ht]

/-- C3 witness: a page with zero comments terminates the stream at once. -/
theorem stream_pagination_and_termination_witness :
    listGo server2 9 "X" = ([], ["X"], true) :=
  stream_pagination_and_termination.1 server2
    { Children := [], After := "", Before := "" } 8 "X" (by decide) (Or.inl rfl)

/-- C5 (src/main.go): `fmt.Errorf` after a failed token exchange only builds
an error value, so the run is NOT aborted: with a decoded response carrying a
non-empty error field, src/main.go still issues the listing GET and then the
edit and delete POSTs with an empty bearer token and exits 0, while
part_000's `log.Fatalf` terminates with exit code 1 before any request. -/
theorem auth_failure_not_fatal_in_main_go :
    newAccessToken badTok = Except.error "wrong password"
    ∧ mainGoRun cfgKeep badTok serverK respOkAll 5 =
      { requests := [Action.getListing ""],
        consumer := [Action.editusertext "" "t1_a" "r", Action.del "" "t1_a"],
        exitCode := 0 }
    ∧ part000Run cfgKeep badTok serverK respOkAll 5 =
      { requests := [], consumer := [], exitCode := 1 } :=
  ⟨rfl, by decide, by decide⟩

/-- C6 counterexample: a run whose very first page fetch fails in transport
is bit-for-bit the same run result — same requests, same (empty) consumer
trace, same exit code 0 — as a run against a normally exhausted stream, so
the failure is NOT reported through the termination channel and NOT
distinguishable from normal exhaustion; only a log line differs. -/
theorem stream_error_counterexample :
    mainGoRun cfgKeep tokOK errServer respOkAll 5 =
      mainGoRun cfgKeep tokOK emptyServer respOkAll 5
    ∧ (mainGoRun cfgKeep tokOK errServer respOkAll 5).exitCode = 0 := by
  exact ⟨by decide, rfl⟩

/-- C6 amended: a transport or decode failure on a page fetch aborts the
stream immediately — no comment of that page is emitted and no further page
is requested, while comments of earlier pages were already emitted — but the
error is only logged: the channel is closed exactly as on normal exhaustion
and src/main.go's process exits 0 regardless. -/
theorem stream_error_silent_abort :
    (∀ (server : PageServer) (fuel : ℕ) (cursor : String),
      server cursor = none →
      listGo server (fuel + 1) cursor = ([], [cursor], false))
    ∧ (∀ (server : PageServer) (page : Page) (fuel : ℕ) (cursor : String),
      server cursor = some page →
      ¬(page.Children.length = 0 ∨ page.After = "") →
      server page.After = none →
      listGo server (fuel + 2) cursor = (page.Children, [cursor, page.After], false))
    ∧ (∀ (config : Config) (tok : TokenResp) (server : PageServer)
        (respf : Comment → EditResp) (fuel : ℕ),
      (mainGoRun config tok server respf fuel).exitCode = 0) := by
  refine ⟨?_, ?_, fun config tok server respf fuel => rfl⟩
  · intro server fuel cursor hs
    simp only [listGo, hs]
  · intro server page fuel cursor hs ht hafter
    simp only [listGo, hs]
    rw [if_neg ht]
    simp only [listGo, hafter]
    simp

/-- C6 witness: the always-failing server aborts at once with no comment. -/
theorem stream_error_silent_abort_witness :
    listGo errServer 4 "Z" = ([], ["Z"], false) :=
  stream_error_silent_abort.1 errServer 3 "Z" rfl

/-- C7: mutation failures are isolated per comment: the actions issued never
depend on the edit response, a kept comment gets its delete POST right after
its edit POST whatever the edit outcome, a missing success marker is only
logged, and every comment before and after one in the stream is still fully
processed. -/
theorem edit_failure_isolated :
    (∀ (c : Comment) (token : String) (config : Config) (r r' : EditResp),
      processMainGo c token config r = processMainGo c token config r')
    ∧ (∀ (c : Comment) (token : String) (config : Config) (r : EditResp),
      c.ShouldSkip config = false → config.DryRun = false →
      processMainGo c token config r =
        [Action.editusertext token c.Fullname config.ReplacementComment,
          Action.del token c.Fullname])
    ∧ (∀ (c : Comment) (token : String) (config : Config) (keys : List String),
      c.ShouldSkip config = false → config.DryRun = false →
      keys.contains "jquery" = false →
      (c.EditStep token config (EditResp.decoded keys)).2 = ["Failed to edit"])
    ∧ (∀ (pre post : List Comment) (c : Comment) (token : String)
        (config : Config) (respf : Comment → EditResp),
      runConsumerMainGo (pre ++ c :: post) token config respf =
        runConsumerMainGo pre token config respf
        ++ processMainGo c token config (respf c)
        ++ runConsumerMainGo post token config respf) := by
  refine ⟨?_, ?_, ?_, ?_⟩
  · intro c token config r r'
    unfold processMainGo Comment.EditStep
    split_ifs <;> rfl
  · intro c token config r h1 h2
    simp [processMainGo, Comment.EditStep, Comment.DeleteActions, h1, h2]
  · intro c token config keys h1 h2 h3
    simp only [Comment.EditStep, h1, h2, h3, Bool.or_self, Bool.false_eq_true,
      if_false]
  · intro pre post c token config respf
    unfold runConsumerMainGo
    rw [concatMap_append]
    simp [concatMap]

/-- C7 witness: a kept comment whose edit response lacks the success marker
still gets its delete POST issued right after the edit POST. -/
theorem edit_failure_isolated_witness :
    processMainGo cb "t" cfgKeep (EditResp.decoded []) =
      [Action.editusertext "t" "t1_b" "r", Action.del "t" "t1_b"] :=
  edit_failure_isolated.2.1 cb "t" cfgKeep (EditResp.decoded []) (by decide) rfl

/-- The consumer loop of src/main.go never sleeps: the pacing call is
commented out in the source. -/
theorem hasSleep_runConsumerMainGo (cs : List Comment) (token : String)
    (config : Config) (respf : Comment → EditResp) :
    hasSleep (runConsumerMainGo cs token config respf) = false := by
  induction cs with
  | nil => rfl
  | cons c cs ih =>
    have hc : hasSleep (processMainGo c token config (respf c)) = false := by
      unfold processMainGo Comment.EditStep Comment.DeleteActions
      split_ifs <;> simp [hasSleep]
    have hsplit : runConsumerMainGo (c :: cs) token config respf =
        processMainGo c token config (respf c)
          ++ runConsumerMainGo cs token config respf := rfl
    rw [hsplit]
    simp only [hasSleep, List.any_append, Bool.or_eq_false_iff] at hc ih ⊢
    exact ⟨hc, ih⟩

/-- C8 counterexample: in src/main.go two successive kept comments have their
four mutating calls issued back to back with no pacing action anywhere in
the consumer trace — the `time.Sleep` is commented out. -/
theorem no_pacing_counterexample :
    (mainGoRun cfgKeep tokOK server2 respOkAll 5).consumer =
      [Action.editusertext "t" "t1_a" "r", Action.del "t" "t1_a",
        Action.editusertext "t" "t1_b" "r", Action.del "t" "t1_b"]
    ∧ hasSleep ((mainGoRun cfgKeep tokOK server2 respOkAll 5).consumer) = false := by
  exact ⟨by decide, by decide⟩

/-- C8 amended: only part_000 paces: there, every processed comment —
whatever its disposition or the dry-run flag — ends with a fixed 15-second
sleep before the next comment is pulled, whereas src/main.go's consumer
trace never contains a sleep. -/
theorem pacing_only_in_part000 :
    (∀ (config : Config) (tok : TokenResp) (server : PageServer)
      (respf : Comment → EditResp) (fuel : ℕ),
      hasSleep ((mainGoRun config tok server respf fuel).consumer) = false)
    ∧ (∀ (c : Comment) (token : String) (config : Config) (resp : EditResp),
      (processPart000 c token config resp).getLast? = some (Action.sleepSeconds 15))
    ∧ (∀ (pre post : List Comment) (c : Comment) (token : String)
        (config : Config) (respf : Comment → EditResp),
      runConsumerPart000 (pre ++ c :: post) token config respf =
        runConsumerPart000 pre token config respf
        ++ processPart000 c token config (respf c)
        ++ runConsumerPart000 post token config respf) := by
  refine ⟨?_, ?_, ?_⟩
  · intro config tok server respf fuel
    exact hasSleep_runConsumerMainGo (listStream server fuel).1
      (mainGoToken tok) config respf
  · intro c token config resp
    unfold processPart000
    exact List.getLast?_concat _
  · intro pre post c token config respf
    unfold runConsumerPart000
    rw [concatMap_append]
    simp [concatMap]

/-- C8 witness: even a dry run of part_000's loop ends each comment with the
pacing sleep, while src/main.go's trace stays sleep-free. -/
theorem pacing_only_in_part000_witness :
    (processPart000 caAll "t" cfgDry EditResp.transportError).getLast? =
      some (Action.sleepSeconds 15) :=
  pacing_only_in_part000.2.1 caAll "t" cfgDry EditResp.transportError

/-- Dropping non-mutating actions, the two consumer loops agree: part_000
only adds pacing sleeps. -/
theorem filter_mutating_consumers_agree (cs : List Comment) (token : String)
    (config : Config) (respf : Comment → EditResp) :
    (runConsumerMainGo cs token config respf).filter Action.isMutating =
      (runConsumerPart000 cs token config respf).filter Action.isMutating := by
  induction cs with
  | nil => rfl
  | cons c cs ih =>
    have h1 : runConsumerMainGo (c :: cs) token config respf =
        processMainGo c token config (respf c)
          ++ runConsumerMainGo cs token config respf := rfl
    have h2 : runConsumerPart000 (c :: cs) token config respf =
        processPart000 c token config (respf c)
          ++ runConsumerPart000 cs token config respf := rfl
    have h3 : (processPart000 c token config (respf c)).filter Action.isMutating =
        (processMainGo c token config (respf c)).filter Action.isMutating := by
      unfold processPart000 processMainGo
      rw [List.filter_append]
      simp [Action.isMutating]
    rw [h1, h2, List.filter_append, List.filter_append, h3, ih]

/-- C9 counterexample: with the same policy, token-exchange outcome and
server responses the two entry points are NOT behaviorally equivalent: on a
successful exchange their consumer traces differ (part_000 paces, main.go
does not), and on a failed exchange main.go still issues the listing GET
that part_000's fatal exit never sends. -/
theorem entry_points_differ_counterexample :
    (mainGoRun cfgKeep tokOK serverK respOkAll 5).consumer ≠
      (part000Run cfgKeep tokOK serverK respOkAll 5).consumer
    ∧ (mainGoRun cfgKeep badTok serverK respOkAll 5).requests ≠
      (part000Run cfgKeep badTok serverK respOkAll 5).requests := by
  exact ⟨by decide, by decide⟩

/-- C9 amended: given the same loaded policy, the same successful token
exchange and the same server responses, the two entry points issue the same
listing requests and the same sequence of mutating HTTP calls and exit
alike; they differ in pacing (part_000 sleeps 15 seconds per comment) and in
the handling of a failed token exchange (part_000 aborts, main.go continues
with an empty token). -/
theorem entry_points_agree_on_http :
    ∀ (config : Config) (token : String) (tok : TokenResp) (server : PageServer)
      (respf : Comment → EditResp) (fuel : ℕ),
      newAccessToken tok = Except.ok token →
      (mainGoRun config tok server respf fuel).requests =
        (part000Run config tok server respf fuel).requests
      ∧ (mainGoRun config tok server respf fuel).consumer.filter Action.isMutating =
        (part000Run config tok server respf fuel).consumer.filter Action.isMutating
      ∧ (mainGoRun config tok server respf fuel).exitCode =
        (part000Run config tok server respf fuel).exitCode := by
  intro config token tok server respf fuel h
  have htok : mainGoToken tok = token := by
    unfold mainGoToken
    rw [h]
  unfold mainGoRun part000Run
  rw [h]
  refine ⟨rfl, ?_, rfl⟩
  rw [htok]
  exact filter_mutating_consumers_agree _ _ _ _

/-- C9 witness: on the concrete two-page stream with a valid token the two
entry points issue identical listing requests. -/
theorem entry_points_agree_on_http_witness :
    (mainGoRun cfgKeep tokOK server2 respOkAll 5).requests =
      (part000Run cfgKeep tokOK server2 respOkAll 5).requests :=
  (entry_points_agree_on_http cfgKeep "t" tokOK server2 respOkAll 5 rfl).1

end Shreddit
